import Mathlib

/-!
Verification of the dynamic-credentials helpers of the repository: the
generic `DynamicCredentialsHelper`, the Zammad-specific variant, the
node-description transform `addDynamicCredentialsProperties`, and the
Microsoft Graph pagination helper `microsoftApiRequestAllItems`.

The TypeScript code is shallowly embedded:
- the host's parameter store (`getNodeParameter`) is a function from a
  parameter name and an item index to an optional value; `none` models a
  read that throws (parameter absent), `some v` a successful read;
- JavaScript values flowing through the helpers are modelled by `PVal`
  (string, boolean, number, or `undefined`);
- request descriptors (`IRequestOptions`) are records of optional fields,
  with header and query maps as association lists;
- exceptions are modelled with `Except`, and the distinct error shapes of
  the code with the structured type `CredErr`;
- in-place mutation of a caller-owned object through a shared reference
  (JavaScript aliasing after a shallow `{ ...options }` spread) is made
  explicit: a function that can mutate its argument returns a pair of the
  produced value and the state of the caller's argument after the call.
-/

/-- JavaScript values the helpers handle: strings, booleans, numbers and
`undefined`. -/
inductive PVal where
  | str (s : String)
  | bool (b : Bool)
  | num (n : Nat)
  | undef
deriving DecidableEq, Repr

/-- JavaScript truthiness for the values of `PVal`: the empty string, `false`,
`0` and `undefined` are falsy. -/
def PVal.truthy : PVal → Bool
  | .str s => if s = "" then false else true
  | .bool b => b
  | .num n => if n = 0 then false else true
  | .undef => false

/-- JavaScript string coercion (template-literal interpolation) of a `PVal`. -/
def PVal.toStr : PVal → String
  | .str s => s
  | .bool b => if b then "true" else "false"
  | .num n => toString n
  | .undef => "undefined"

/-- The host's parameter store, the collaborator behind
`execFunctions.getNodeParameter(name, itemIndex)`: `none` models a read that
throws (the parameter is absent), `some v` a read returning `v`. -/
abbrev ParameterStore := String → Nat → Option PVal

/-- A JavaScript object used as a string-keyed map (headers, query). -/
abbrev Smap := List (String × PVal)

/-- JavaScript property assignment `m[k] = v`: overwrite the value at an
existing key in place, or append the key. -/
def setV : Smap → String → PVal → Smap
  | [], k, v => [(k, v)]
  | (k0, v0) :: rest, k, v =>
    if k0 = k then (k, v) :: rest else (k0, v0) :: setV rest k v

/-- JavaScript property read `m[k]`. -/
def lookupV : Smap → String → Option PVal
  | [], _ => none
  | (k0, v0) :: rest, k => if k0 = k then some v0 else lookupV rest k

/-- The error shapes the helpers can throw. `resolutionFailed` is the
`Failed to get dynamic credentials: ...` wrapper of the inner `catch`. -/
inductive CredErr where
  | notEnabled
  | paramNotFound (name : String)
  | unsupported (credentialType : PVal)
  | resolutionFailed (cause : CredErr)
deriving DecidableEq, Repr

deriving instance DecidableEq for Except

/-- An `IRequestOptions` request descriptor as the helpers touch it: headers
and query (`qs`) maps, URI, the `auth` sub-structure (user/pass), the
`rejectUnauthorized` flag and the body. A `none` field is an absent
(`undefined`) property of the JavaScript object. -/
structure ReqOptions where
  uri : Option String := none
  headers : Option Smap := none
  qs : Option Smap := none
  auth : Option (PVal × PVal) := none
  rejectUnauthorized : Option Bool := none
  body : Option PVal := none
deriving DecidableEq, Repr

/-- The credential object (`IDataObject`) built by
`DynamicCredentialsHelper.getDynamicCredentials`: a plain object whose absent
properties read as `undefined`. -/
structure DynCreds where
  username : PVal := .undef
  password : PVal := .undef
  accessToken : PVal := .undef
  apiKey : PVal := .undef
deriving DecidableEq, Repr

/-- `DynamicCredentialsHelper.isDynamicCredentialEnabled`: read the
`useDynamicCredentials` parameter without a default (a failed read is caught
and yields `false`) and compare it with strict equality to the boolean
`true`. The function is total, so it never throws. -/
def isDynamicCredentialEnabled (s : ParameterStore) (itemIndex : Nat) : Bool :=
  match s "useDynamicCredentials" itemIndex with
  | some v => decide (v = PVal.bool true)
  | none => false

/-- `DynamicCredentialsHelper.getDynamicCredentials`: throws `notEnabled`
outside the inner try; inside it reads the `credentialType` discriminator and
the variant fields, wrapping every inner throw (parameter-read failure or the
final unsupported-type throw) in `resolutionFailed`. Note the source reads
`credentialPath` in the else-branch before deciding whether the type is one
of `oauth2`/`apiKey`. -/
def getDynamicCredentials (s : ParameterStore) (itemIndex : Nat) :
    Except CredErr DynCreds :=
  if isDynamicCredentialEnabled s itemIndex then
    match s "credentialType" itemIndex with
    | none => .error (.resolutionFailed (.paramNotFound "credentialType"))
    | some credentialType =>
      if credentialType = PVal.str "basic" then
        match s "basicUsername" itemIndex with
        | none => .error (.resolutionFailed (.paramNotFound "basicUsername"))
        | some username =>
          match s "basicPassword" itemIndex with
          | none => .error (.resolutionFailed (.paramNotFound "basicPassword"))
          | some password => .ok { username := username, password := password }
      else
        match s "credentialPath" itemIndex with
        | none => .error (.resolutionFailed (.paramNotFound "credentialPath"))
        | some tokenValue =>
          if credentialType = PVal.str "oauth2" then
            .ok { accessToken := tokenValue }
          else if credentialType = PVal.str "apiKey" then
            .ok { apiKey := tokenValue }
          else
            .error (.resolutionFailed (.unsupported credentialType))
  else
    .error .notEnabled

/-- UTF-8 encoding of one character, as `Buffer.from(string)` produces it. -/
def utf8Char (c : Char) : List Nat :=
  let n := c.toNat
  if n < 128 then [n]
  else if n < 2048 then [192 + n / 64, 128 + n % 64]
  else if n < 65536 then [224 + n / 4096, 128 + n / 64 % 64, 128 + n % 64]
  else [240 + n / 262144, 128 + n / 4096 % 64, 128 + n / 64 % 64, 128 + n % 64]

/-- UTF-8 bytes of a string. -/
def utf8Bytes (s : String) : List Nat := (s.data.map utf8Char).flatten

/-- The standard base64 alphabet, by sextet value. -/
def base64Digit (n : Nat) : Char :=
  "ABCDEFGHIJKLMNOPQRSTUVWXYZabcdefghijklmnopqrstuvwxyz0123456789+/".data.getD n 'A'

/-- Standard base64 of a byte sequence, with `=` padding, as
`Buffer.toString('base64')` produces it. -/
def base64Encode : List Nat → String
  | [] => ""
  | [a] => String.mk [base64Digit (a / 4), base64Digit (a % 4 * 16)] ++ "=="
  | [a, b] =>
    String.mk [base64Digit (a / 4), base64Digit (a % 4 * 16 + b / 16),
      base64Digit (b % 16 * 4)] ++ "="
  | a :: b :: c :: rest =>
    String.mk [base64Digit (a / 4), base64Digit (a % 4 * 16 + b / 16),
      base64Digit (b % 16 * 4 + c / 64), base64Digit (c % 64)] ++
      base64Encode rest

/-- `DynamicCredentialsHelper.applyDynamicCredentials`. The source makes a
shallow copy `newOptions = { ...options }` and then a fresh copy of the
headers map only; in the apiKey/query branch `newOptions.qs = newOptions.qs || \x7b\x7d`
keeps the caller's own query object when one exists, so the subsequent write
`newOptions.qs[keyName] = ...` goes through the shared reference into the
caller's descriptor. The result pairs the returned descriptor with the state
of the caller's `options` after the call, making that aliasing explicit. -/
def applyDynamicCredentials (s : ParameterStore) (itemIndex : Nat)
    (options : ReqOptions) : Except CredErr (ReqOptions × ReqOptions) :=
  if isDynamicCredentialEnabled s itemIndex then
    match getDynamicCredentials s itemIndex with
    | .error e => .error e
    | .ok credentials =>
      match s "credentialType" itemIndex with
      | none => .error (.paramNotFound "credentialType")
      | some credentialType =>
        let headersCopy : Smap := options.headers.getD []
        if credentialType = PVal.str "oauth2" then
          let h := setV headersCopy "Authorization"
            (.str ("Bearer " ++ credentials.accessToken.toStr))
          .ok ({ options with headers := some h }, options)
        else if credentialType = PVal.str "apiKey" then
          let location := (s "apiKeyLocation" itemIndex).getD (.str "header")
          let keyName := (s "apiKeyName" itemIndex).getD (.str "X-API-Key")
          if location = PVal.str "header" then
            let h := setV headersCopy keyName.toStr credentials.apiKey
            .ok ({ options with headers := some h }, options)
          else if location = PVal.str "query" then
            let q := setV (options.qs.getD []) keyName.toStr credentials.apiKey
            .ok ({ options with headers := some headersCopy, qs := some q },
              if options.qs.isSome then { options with qs := some q } else options)
          else
            .ok ({ options with headers := some headersCopy }, options)
        else if credentialType = PVal.str "basic" then
          let auth := base64Encode (utf8Bytes
            (credentials.username.toStr ++ ":" ++ credentials.password.toStr))
          let h := setV headersCopy "Authorization" (.str ("Basic " ++ auth))
          .ok ({ options with headers := some h }, options)
        else
          .error (.unsupported credentialType)
  else
    .ok (options, options)

/-- Outcome of the proxy built by
`DynamicCredentialsHelper.createCredentialsProxy`: either the dynamic
credentials, or whatever the original static-lookup method produced. -/
inductive ProxyOut (ρ : Type) where
  | dynamic (credentials : DynCreds)
  | staticResult (r : ρ)
deriving DecidableEq, Repr

/-- `DynamicCredentialsHelper.createCredentialsProxy`. The original method is
modelled by its (deterministic) outcome `f`: `.ok r` when a call returns `r`,
`.error e` when a call throws `e`. The proxy reads the enabling flag with
default `false`, tests its truthiness, and on any throw inside the `try`
falls into the `catch`, which calls the original method. The second
component counts how many times the original method is invoked; note that a
throwing original method in the disabled branch throws inside the `try`, so
the `catch` invokes it a second time and its second throw escapes. -/
def createCredentialsProxy {ε ρ : Type} (s : ParameterStore)
    (f : Except ε ρ) : Except ε (ProxyOut ρ) × Nat :=
  let useDynamicCredentials := (s "useDynamicCredentials" 0).getD (.bool false)
  if useDynamicCredentials.truthy then
    match getDynamicCredentials s 0 with
    | .ok credentials => (.ok (.dynamic credentials), 0)
    | .error _ =>
      match f with
      | .ok r => (.ok (.staticResult r), 1)
      | .error e => (.error e, 1)
  else
    match f with
    | .ok r => (.ok (.staticResult r), 1)
    | .error e => (.error e, 2)

/-- `ZammadDynamicCredentialsHelper.isDynamicCredentialEnabled`: same shape
as the generic helper, on the `useZammadDynamicCredentials` parameter. -/
def zammadIsDynamicCredentialEnabled (s : ParameterStore) (itemIndex : Nat) :
    Bool :=
  match s "useZammadDynamicCredentials" itemIndex with
  | some v => decide (v = PVal.bool true)
  | none => false

/-- The credential object built by
`ZammadDynamicCredentialsHelper.getDynamicCredentials`: base URL,
certificate flag, and the fields of the selected authentication type (absent
properties read as `undefined`). -/
structure ZCreds where
  baseUrl : PVal
  allowUnauthorizedCerts : PVal
  username : PVal := .undef
  password : PVal := .undef
  accessToken : PVal := .undef
deriving DecidableEq, Repr

/-- `ZammadDynamicCredentialsHelper.getDynamicCredentials`: reads the
`authentication` discriminator (no default), `baseUrl` (default the empty
string) and `allowUnauthorizedCerts` (default `false`), then the fields of
the selected branch; the strict comparison with the string `basicAuth`
routes every other discriminator value to the token branch. Inner throws are
wrapped in `resolutionFailed`. -/
def zammadGetDynamicCredentials (s : ParameterStore) (itemIndex : Nat) :
    Except CredErr ZCreds :=
  if zammadIsDynamicCredentialEnabled s itemIndex then
    match s "authentication" itemIndex with
    | none => .error (.resolutionFailed (.paramNotFound "authentication"))
    | some authenticationType =>
      let baseUrl := (s "baseUrl" itemIndex).getD (.str "")
      let allow := (s "allowUnauthorizedCerts" itemIndex).getD (.bool false)
      if authenticationType = PVal.str "basicAuth" then
        match s "username" itemIndex with
        | none => .error (.resolutionFailed (.paramNotFound "username"))
        | some username =>
          match s "password" itemIndex with
          | none => .error (.resolutionFailed (.paramNotFound "password"))
          | some password =>
            .ok { baseUrl := baseUrl, allowUnauthorizedCerts := allow,
                  username := username, password := password }
      else
        match s "accessToken" itemIndex with
        | none => .error (.resolutionFailed (.paramNotFound "accessToken"))
        | some accessToken =>
          .ok { baseUrl := baseUrl, allowUnauthorizedCerts := allow,
                accessToken := accessToken }
  else
    .error .notEnabled

/-- The characters of the fixed API-version path needle `/api/v1`. -/
def apiV1Needle : List Char := "/api/v1".data

/-- The suffix of `hay` after the first occurrence of `needle`, or `none`
when `needle` does not occur: the effect of matching the unanchored regular
expression built from `needle` followed by a capture of the rest of the
string. -/
def afterFirst (needle : List Char) : List Char → Option (List Char)
  | [] => if needle = [] then some [] else none
  | c :: rest =>
    if needle.isPrefixOf (c :: rest) then some ((c :: rest).drop needle.length)
    else afterFirst needle rest

/-- `baseUrl.endsWith('/') ? baseUrl.substr(0, baseUrl.length - 1) : baseUrl`:
drop one trailing slash. -/
def stripTrailingSlash (b : String) : String :=
  if b.data.getLast? = some '/' then String.mk b.data.dropLast else b


/-- The URI rewrite of `ZammadDynamicCredentialsHelper.applyDynamicCredentials`:
when the resolved base URL is a non-empty string, strip one trailing slash
and rebuild the URI as the base followed by `/api/v1` and the endpoint (the
part of the existing URI after the first occurrence of `/api/v1`, empty when
the URI is absent, empty or has no such occurrence); otherwise leave the
URI alone. -/
def zammadNewUri (credentials : ZCreds) (uri : Option String) : Option String :=
  match credentials.baseUrl with
  | .str b =>
    if b = "" then uri
    else
      let base := stripTrailingSlash b
      let endpoint : String :=
        match uri with
        | some u =>
          if u = "" then ""
          else
            match afterFirst apiV1Needle u.data with
            | some suffix => String.mk suffix
            | none => ""
        | none => ""
      some (base ++ "/api/v1" ++ endpoint)
  | _ => uri

/-- The `rejectUnauthorized` field after the Zammad apply: set to the
negated truthiness of `allowUnauthorizedCerts` when that credential field is
defined (it always is when the credentials came from
`zammadGetDynamicCredentials`, whose read has the default `false`). -/
def zammadReject (credentials : ZCreds) (old : Option Bool) : Option Bool :=
  if credentials.allowUnauthorizedCerts = .undef then old
  else some (!credentials.allowUnauthorizedCerts.truthy)

/-- The headers map after the Zammad token branch: the `Authorization` write
happens only when the resolved access token is truthy (non-empty). -/
def zammadTokenHeaders (credentials : ZCreds) (headers : Option Smap) :
    Option Smap :=
  if credentials.accessToken.truthy then
    some (setV (headers.getD []) "Authorization"
      (.str ("Token token=" ++ credentials.accessToken.toStr)))
  else headers

/-- `ZammadDynamicCredentialsHelper.applyDynamicCredentials`. The source only
makes the shallow copy `newOptions = { ...options }`; in the token branch
`newOptions.headers = newOptions.headers || \x7b\x7d` keeps the caller's own
headers object when one exists, so the `Authorization` write goes through
the shared reference into the caller's descriptor. As for the generic
helper, the result pairs the returned descriptor with the state of the
caller's `options` after the call: the caller's headers map is changed
exactly when the token write happened and the caller's descriptor owned a
headers object. -/
def zammadApplyDynamicCredentials (s : ParameterStore) (itemIndex : Nat)
    (options : ReqOptions) : Except CredErr (ReqOptions × ReqOptions) :=
  if zammadIsDynamicCredentialEnabled s itemIndex then
    match zammadGetDynamicCredentials s itemIndex with
    | .error e => .error e
    | .ok credentials =>
      match s "authentication" itemIndex with
      | none => .error (.paramNotFound "authentication")
      | some authenticationType =>
        let newUri := zammadNewUri credentials options.uri
        let reject := zammadReject credentials options.rejectUnauthorized
        if authenticationType = PVal.str "basicAuth" then
          let auth :=
            if credentials.username.truthy && credentials.password.truthy then
              some (credentials.username, credentials.password)
            else options.auth
          .ok ({ options with
                 uri := newUri, auth := auth, rejectUnauthorized := reject },
            options)
        else
          .ok ({ options with
                 uri := newUri,
                 headers := zammadTokenHeaders credentials options.headers,
                 rejectUnauthorized := reject },
            if credentials.accessToken.truthy && options.headers.isSome then
              { options with
                headers := zammadTokenHeaders credentials options.headers }
            else options)
  else
    .ok (options, options)

/-- One entry of an `options`-typed node property: display name and value. -/
structure PropOption where
  name : String
  value : String
deriving DecidableEq, Repr

/-- The `displayOptions.show` visibility conditions used by the
dynamic-credential properties: which values of the enabling flag and of the
discriminator make the property visible. -/
structure DisplayShow where
  useDynamicCredentials : Option (List PVal) := none
  credentialType : Option (List PVal) := none
deriving DecidableEq, Repr

/-- An `INodeProperties` entry, with the fields the dynamic-credential
property list uses (`default` is spelled `defaultValue`; a `typeOptions`
holding only `password: true` is the flag `passwordField`). -/
structure NodeProp where
  displayName : String
  name : String
  type : String
  defaultValue : PVal
  description : Option String := none
  displayOptionsShow : Option DisplayShow := none
  options : Option (List PropOption) := none
  passwordField : Bool := false
deriving DecidableEq, Repr

/-- The list `dynamicCredentialsProperties` of
`DynamicCredentialsProperties.ts`: the enabling flag, the discriminator, the
token/key/username/password fields and the API-key location and name. -/
def dynamicCredentialsProperties : List NodeProp :=
  [{ displayName := "Use Dynamic Credentials",
     name := "useDynamicCredentials",
     type := "boolean",
     defaultValue := .bool false,
     description := some
       "Whether to use credentials from a previous node instead of stored credentials" },
   { displayName := "Credential Type",
     name := "credentialType",
     type := "options",
     displayOptionsShow := some { useDynamicCredentials := some [.bool true] },
     options := some [{ name := "OAuth2", value := "oauth2" },
       { name := "API Key", value := "apiKey" },
       { name := "Basic Auth", value := "basic" }],
     defaultValue := .str "oauth2",
     description := some "Type of credential to use from the input data" },
   { displayName := "Access Token",
     name := "credentialPath",
     type := "string",
     displayOptionsShow := some
       { useDynamicCredentials := some [.bool true], credentialType := some [.str "oauth2"] },
     defaultValue := .str "",
     description := some "Access token for OAuth2 authentication" },
   { displayName := "API Key",
     name := "credentialPath",
     type := "string",
     displayOptionsShow := some
       { useDynamicCredentials := some [.bool true], credentialType := some [.str "apiKey"] },
     defaultValue := .str "",
     description := some "API key for authentication" },
   { displayName := "Username",
     name := "basicUsername",
     type := "string",
     displayOptionsShow := some
       { useDynamicCredentials := some [.bool true], credentialType := some [.str "basic"] },
     defaultValue := .str "",
     description := some "Username for basic authentication" },
   { displayName := "Password",
     name := "basicPassword",
     type := "string",
     passwordField := true,
     displayOptionsShow := some
       { useDynamicCredentials := some [.bool true], credentialType := some [.str "basic"] },
     defaultValue := .str "",
     description := some "Password for basic authentication" },
   { displayName := "API Key Location",
     name := "apiKeyLocation",
     type := "options",
     displayOptionsShow := some
       { useDynamicCredentials := some [.bool true], credentialType := some [.str "apiKey"] },
     options := some [{ name := "Header", value := "header" },
       { name := "Query Parameter", value := "query" }],
     defaultValue := .str "header",
     description := some "Where to add the API key in the request" },
   { displayName := "API Key Name",
     name := "apiKeyName",
     type := "string",
     displayOptionsShow := some
       { useDynamicCredentials := some [.bool true], credentialType := some [.str "apiKey"] },
     defaultValue := .str "X-API-Key",
     description := some "Name of the header or query parameter for the API key" }]

/-- An `INodeCredentialDescription` entry of a node description's
`credentials` list: the credential name and the optional `required` flag. -/
structure NodeCredentialDescription where
  name : String
  required : Option Bool := none
deriving DecidableEq, Repr

/-- An `INodeTypeDescription` as `addDynamicCredentialsProperties` touches
it: its property list and its credentials list (the transform copies every
other field through the JSON clone unchanged). -/
structure NodeTypeDescription where
  properties : Option (List NodeProp) := none
  credentials : Option (List NodeCredentialDescription) := none
deriving DecidableEq, Repr

/-- `addDynamicCredentialsProperties` of `DynamicCredentialsProperties.ts`:
deep-clone the description (`JSON.parse(JSON.stringify(...))`, so no part of
the result shares a reference with the input and the input cannot be
mutated), prepend `dynamicCredentialsProperties` to the properties, and map
`required := false` over the credentials list when one exists. As for the
other helpers, the result pairs the returned description with the state of
the caller's argument after the call, which the deep clone leaves equal to
the input. -/
def addDynamicCredentialsProperties (nodeDescription : NodeTypeDescription) :
    NodeTypeDescription × NodeTypeDescription :=
  let newDescription : NodeTypeDescription :=
    { properties := some
        (dynamicCredentialsProperties ++ nodeDescription.properties.getD []),
      credentials := nodeDescription.credentials.map
        (List.map (fun credential => { credential with required := some false })) }
  (newDescription, nodeDescription)

/-- A Microsoft Graph response as `microsoftApiRequestAllItems` reads it: the
optional continuation link at the property `@odata.nextLink` and the item
array at the requested property name. -/
structure MsResp where
  nextLink : Option String
  items : List PVal
deriving DecidableEq, Repr

/-- The abstract request collaborator behind `microsoftApiRequest.call(...)`
as `microsoftApiRequestAllItems` drives it: it receives the query map
(`undefined` when a continuation link already carries the parameters) and
the continuation link used as the URI. -/
abbrev MsRequest := Option Smap → Option String → MsResp

/-- The `do ... while` pagination loop of `microsoftApiRequestAllItems`:
request, append the items, continue while the response carries a
continuation link. The loop is bounded by explicit fuel because the source
loops until the remote service stops sending links; the boolean reports
whether the loop exited normally (no link) within the fuel. -/
def msLoop (request : MsRequest) (query : Smap) :
    Nat → Option String → List PVal → List PVal × Bool
  | 0, _, acc => (acc, false)
  | fuel + 1, nextLink, acc =>
    let responseData := request (if nextLink.isSome then none else some query)
      nextLink
    let acc2 := acc ++ responseData.items
    match responseData.nextLink with
    | none => (acc2, true)
    | some l => msLoop request query fuel (some l) acc2

/-- `microsoftApiRequestAllItems`: the assignment `query.$top = 100` writes
into the caller-supplied query object before the first request, and nothing
later writes to that object again. The second component of the result is the
state of the caller's `query` object after the call, making the in-place
mutation explicit. -/
def microsoftApiRequestAllItems (request : MsRequest) (query : Smap)
    (fuel : Nat) : (List PVal × Bool) × Smap :=
  let queryAfter := setV query "$top" (.num 100)
  (msLoop request queryAfter fuel none [], queryAfter)


/-- Reading back a key just written with `setV` yields the written value. -/
theorem lookupV_setV (m : Smap) (k : String) (v : PVal) :
    lookupV (setV m k v) k = some v := by
  induction m with
  | nil => simp [setV, lookupV]
  | cons hd tl ih =>
    obtain ⟨k0, v0⟩ := hd
    by_cases h : k0 = k <;> simp [setV, lookupV, h, ih]

/-- Writing with `setV` leaves every other key unchanged. -/
theorem lookupV_setV_ne (m : Smap) (k k2 : String) (v : PVal) (h : k2 ≠ k) :
    lookupV (setV m k v) k2 = lookupV m k2 := by
  induction m with
  | nil => simp [setV, lookupV, Ne.symm h]
  | cons hd tl ih =>
    obtain ⟨k0, v0⟩ := hd
    by_cases h0 : k0 = k
    · subst h0
      simp [setV, lookupV, Ne.symm h]
    · simp [setV, lookupV, h0, ih]

/-- C3: for every item index and parameter-store state, the enablement check
returns `true` exactly when the enabling flag parameter reads the boolean
`true`; a failed read (absent parameter) and a value of any other type or
value yields `false`, and the function is total, so it never throws. This
holds for the generic helper and for the Zammad helper alike. -/
theorem c3_isDynamicCredentialEnabled_iff_flag_true (s : ParameterStore)
    (itemIndex : Nat) :
    (isDynamicCredentialEnabled s itemIndex = true ↔
      s "useDynamicCredentials" itemIndex = some (PVal.bool true)) ∧
    (zammadIsDynamicCredentialEnabled s itemIndex = true ↔
      s "useZammadDynamicCredentials" itemIndex = some (PVal.bool true)) := by
  constructor
  · unfold isDynamicCredentialEnabled
    cases h : s "useDynamicCredentials" itemIndex with
    | none => simp
    | some v => simp
  · unfold zammadIsDynamicCredentialEnabled
    cases h : s "useZammadDynamicCredentials" itemIndex with
    | none => simp
    | some v => simp

/-- C5: whenever dynamic credentials are enabled with credential type
`basic`, username `u` and password `p`, the descriptor returned by
`applyDynamicCredentials` carries the header `Authorization: Basic dTpw`,
the standard base64 encoding of `u:p` after the `Basic ` prefix. -/
theorem c5_basic_auth_header (s : ParameterStore) (itemIndex : Nat)
    (options : ReqOptions)
    (henabled : s "useDynamicCredentials" itemIndex = some (PVal.bool true))
    (htype : s "credentialType" itemIndex = some (PVal.str "basic"))
    (huser : s "basicUsername" itemIndex = some (PVal.str "u"))
    (hpass : s "basicPassword" itemIndex = some (PVal.str "p")) :
    ∃ out, applyDynamicCredentials s itemIndex options = Except.ok out ∧
      lookupV (out.1.headers.getD []) "Authorization" =
        some (PVal.str "Basic dTpw") := by
  simp [applyDynamicCredentials, getDynamicCredentials,
    isDynamicCredentialEnabled, henabled, htype, huser, hpass, PVal.toStr]
  rw [lookupV_setV]
  decide

/-- A parameter store enabling generic dynamic credentials of type `basic`
with username `u` and password `p`. -/
def basicStore : ParameterStore := fun name _ =>
  if name = "useDynamicCredentials" then some (.bool true)
  else if name = "credentialType" then some (.str "basic")
  else if name = "basicUsername" then some (.str "u")
  else if name = "basicPassword" then some (.str "p")
  else none

/-- C5 witness: the basic-auth scenario at a concrete store and the empty
descriptor. -/
theorem c5_basic_auth_header_witness :
    ∃ out, applyDynamicCredentials basicStore 0 {} = Except.ok out ∧
      lookupV (out.1.headers.getD []) "Authorization" =
        some (PVal.str "Basic dTpw") :=
  c5_basic_auth_header basicStore 0 {} rfl rfl rfl rfl

/-- C7: applying an enabled apiKey credential with location `query`, name
`X-API-Key` and key `abc` to a descriptor whose query map is empty (absent
or present but empty) yields a descriptor whose query map holds exactly the
pair `X-API-Key := abc` and whose headers map holds exactly the entries of
the input descriptor's headers map. -/
theorem c7_apikey_query_roundtrip (s : ParameterStore) (itemIndex : Nat)
    (options : ReqOptions)
    (henabled : s "useDynamicCredentials" itemIndex = some (PVal.bool true))
    (htype : s "credentialType" itemIndex = some (PVal.str "apiKey"))
    (hkey : s "credentialPath" itemIndex = some (PVal.str "abc"))
    (hloc : s "apiKeyLocation" itemIndex = some (PVal.str "query"))
    (hname : s "apiKeyName" itemIndex = some (PVal.str "X-API-Key"))
    (hqs : options.qs = none ∨ options.qs = some []) :
    ∃ out, applyDynamicCredentials s itemIndex options = Except.ok out ∧
      out.1.qs = some [("X-API-Key", PVal.str "abc")] ∧
      out.1.headers = some (options.headers.getD []) := by
  rcases hqs with hqs | hqs <;>
    simp [applyDynamicCredentials, getDynamicCredentials,
      isDynamicCredentialEnabled, henabled, htype, hkey, hloc, hname, hqs,
      PVal.toStr, setV]

/-- A parameter store enabling generic dynamic credentials of type `apiKey`
with key `abc`, placed in the query under the name `X-API-Key`. -/
def apiKeyQueryStore : ParameterStore := fun name _ =>
  if name = "useDynamicCredentials" then some (.bool true)
  else if name = "credentialType" then some (.str "apiKey")
  else if name = "credentialPath" then some (.str "abc")
  else if name = "apiKeyLocation" then some (.str "query")
  else if name = "apiKeyName" then some (.str "X-API-Key")
  else none

/-- C7 witness: the apiKey-in-query scenario at a concrete store and the
empty descriptor. -/
theorem c7_apikey_query_roundtrip_witness :
    ∃ out, applyDynamicCredentials apiKeyQueryStore 0 {} = Except.ok out ∧
      out.1.qs = some [("X-API-Key", PVal.str "abc")] ∧
      out.1.headers = some (ReqOptions.headers {} |>.getD []) :=
  c7_apikey_query_roundtrip apiKeyQueryStore 0 {} rfl rfl rfl rfl rfl
    (Or.inl rfl)

/-- C9: `microsoftApiRequestAllItems` always writes `100` into the `$top`
field of the caller-supplied query object, and this write is visible in the
caller's object after the call (the second component of the result), for
every request collaborator and every fuel bound on the pagination loop. -/
theorem c9_allitems_mutates_query (request : MsRequest) (query : Smap)
    (fuel : Nat) :
    (microsoftApiRequestAllItems request query fuel).2 =
      setV query "$top" (PVal.num 100) ∧
    lookupV (microsoftApiRequestAllItems request query fuel).2 "$top" =
      some (PVal.num 100) := by
  refine ⟨rfl, ?_⟩
  show lookupV (setV query "$top" (PVal.num 100)) "$top" = some (PVal.num 100)
  exact lookupV_setV query "$top" (PVal.num 100)

/-- C6: with the Zammad resolver enabled (token authentication, any resolved
token) and the base URL resolved to `https://new.example.com/`, a descriptor
whose URI is `https://old.example.com/api/v1/tickets/5` is rewritten to
exactly `https://new.example.com/api/v1/tickets/5`: the trailing slash of
the base URL is stripped and the path suffix after `/api/v1` is kept. -/
theorem c6_zammad_uri_rewrite (s : ParameterStore) (itemIndex : Nat)
    (options : ReqOptions) (tok : PVal)
    (henabled : s "useZammadDynamicCredentials" itemIndex =
      some (PVal.bool true))
    (hauth : s "authentication" itemIndex = some (PVal.str "tokenAuth"))
    (hbase : s "baseUrl" itemIndex = some (PVal.str "https://new.example.com/"))
    (htok : s "accessToken" itemIndex = some tok)
    (huri : options.uri = some "https://old.example.com/api/v1/tickets/5") :
    ∃ out, zammadApplyDynamicCredentials s itemIndex options = Except.ok out ∧
      out.1.uri = some "https://new.example.com/api/v1/tickets/5" := by
  simp [zammadApplyDynamicCredentials, zammadGetDynamicCredentials,
    zammadIsDynamicCredentialEnabled, henabled, hauth, hbase, htok, huri]
  rfl

/-- A parameter store enabling Zammad dynamic credentials with token
authentication, token `tok` and base URL `https://new.example.com/`. -/
def zammadRewriteStore : ParameterStore := fun name _ =>
  if name = "useZammadDynamicCredentials" then some (.bool true)
  else if name = "authentication" then some (.str "tokenAuth")
  else if name = "baseUrl" then some (.str "https://new.example.com/")
  else if name = "accessToken" then some (.str "tok")
  else none

/-- C6 witness: the URI rewrite at a concrete store and descriptor. -/
theorem c6_zammad_uri_rewrite_witness :
    ∃ out, zammadApplyDynamicCredentials zammadRewriteStore 0
        { uri := some "https://old.example.com/api/v1/tickets/5" } =
      Except.ok out ∧
      out.1.uri = some "https://new.example.com/api/v1/tickets/5" :=
  c6_zammad_uri_rewrite zammadRewriteStore 0
    { uri := some "https://old.example.com/api/v1/tickets/5" }
    (.str "tok") rfl rfl rfl rfl rfl

/-- C10: with the Zammad resolver enabled, empty-string credential fields
are silently omitted rather than applied or rejected. With basic
authentication, when the resolved username or password is the empty string
and the incoming descriptor has no auth sub-structure, the call succeeds and
the returned descriptor still carries no auth sub-structure. With token
authentication, when the resolved access token is the empty string, the call
succeeds and the returned descriptor's headers are exactly the incoming
descriptor's headers: no `Authorization` header is added. -/
theorem c10_zammad_empty_credentials_omitted (s : ParameterStore)
    (itemIndex : Nat) (options : ReqOptions) (u p : String)
    (henabled : s "useZammadDynamicCredentials" itemIndex =
      some (PVal.bool true)) :
    (s "authentication" itemIndex = some (PVal.str "basicAuth") →
      s "username" itemIndex = some (PVal.str u) →
      s "password" itemIndex = some (PVal.str p) →
      (u = "" ∨ p = "") →
      options.auth = none →
      ∃ out, zammadApplyDynamicCredentials s itemIndex options =
        Except.ok out ∧ out.1.auth = none) ∧
    (s "authentication" itemIndex = some (PVal.str "tokenAuth") →
      s "accessToken" itemIndex = some (PVal.str "") →
      ∃ out, zammadApplyDynamicCredentials s itemIndex options =
        Except.ok out ∧ out.1.headers = options.headers) := by
  constructor
  · intro hauth huser hpass hup hnone
    rcases hup with h | h <;> subst h <;>
      simp [zammadApplyDynamicCredentials, zammadGetDynamicCredentials,
        zammadIsDynamicCredentialEnabled, henabled, hauth, huser, hpass,
        hnone, PVal.truthy]
  · intro hauth htok
    simp [zammadApplyDynamicCredentials, zammadGetDynamicCredentials,
      zammadIsDynamicCredentialEnabled, henabled, hauth, htok,
      zammadTokenHeaders, PVal.truthy]

/-- A parameter store enabling Zammad dynamic credentials with basic
authentication and an empty username. -/
def zammadEmptyBasicStore : ParameterStore := fun name _ =>
  if name = "useZammadDynamicCredentials" then some (.bool true)
  else if name = "authentication" then some (.str "basicAuth")
  else if name = "username" then some (.str "")
  else if name = "password" then some (.str "p")
  else none

/-- A parameter store enabling Zammad dynamic credentials with token
authentication and an empty access token. -/
def zammadEmptyTokenStore : ParameterStore := fun name _ =>
  if name = "useZammadDynamicCredentials" then some (.bool true)
  else if name = "authentication" then some (.str "tokenAuth")
  else if name = "accessToken" then some (.str "")
  else none

/-- C10 witness: the two omission scenarios at concrete stores and the empty
descriptor. -/
theorem c10_zammad_empty_credentials_omitted_witness :
    (∃ out, zammadApplyDynamicCredentials zammadEmptyBasicStore 0 {} =
      Except.ok out ∧ out.1.auth = none) ∧
    (∃ out, zammadApplyDynamicCredentials zammadEmptyTokenStore 0 {} =
      Except.ok out ∧ out.1.headers = ReqOptions.headers {}) :=
  ⟨(c10_zammad_empty_credentials_omitted zammadEmptyBasicStore 0 {} "" "p"
      rfl).1 rfl rfl rfl (Or.inl rfl) rfl,
   (c10_zammad_empty_credentials_omitted zammadEmptyTokenStore 0 {} "" ""
      rfl).2 rfl rfl⟩

/-- A parameter store enabling generic dynamic credentials with the
unsupported credential type `ntlm` and no `credentialPath` parameter. -/
def ntlmStore : ParameterStore := fun name _ =>
  if name = "useDynamicCredentials" then some (.bool true)
  else if name = "credentialType" then some (.str "ntlm")
  else none

/-- C4 counterexample: with dynamic credentials enabled and the
discriminator reading `ntlm` but the `credentialPath` parameter absent,
`getDynamicCredentials` fails with the wrapped parameter-not-found error for
`credentialPath` — not with an unsupported-credential-type error naming
`ntlm`, because the source reads `credentialPath` before reaching the
unsupported-type throw. -/
theorem c4_unsupported_type_counterexample :
    isDynamicCredentialEnabled ntlmStore 0 = true ∧
    ntlmStore "credentialType" 0 = some (PVal.str "ntlm") ∧
    getDynamicCredentials ntlmStore 0 =
      Except.error (CredErr.resolutionFailed
        (CredErr.paramNotFound "credentialPath")) ∧
    getDynamicCredentials ntlmStore 0 ≠
      Except.error (CredErr.resolutionFailed
        (CredErr.unsupported (PVal.str "ntlm"))) := by
  decide

/-- C4 as amended: with dynamic credentials enabled and the discriminator
reading a value that is none of `basic`, `oauth2`, `apiKey`, the call always
fails and never returns a credential object; the failure is the wrapped
unsupported-type error naming the value whenever the `credentialPath`
parameter is readable, and the wrapped parameter-not-found error for
`credentialPath` when that parameter is absent. -/
theorem c4_unsupported_type_fails_amended (s : ParameterStore)
    (itemIndex : Nat) (v : PVal)
    (henabled : s "useDynamicCredentials" itemIndex = some (PVal.bool true))
    (htype : s "credentialType" itemIndex = some v)
    (hb : v ≠ PVal.str "basic") (ho : v ≠ PVal.str "oauth2")
    (ha : v ≠ PVal.str "apiKey") :
    (∃ e, getDynamicCredentials s itemIndex = Except.error e) ∧
    (∀ pv, s "credentialPath" itemIndex = some pv →
      getDynamicCredentials s itemIndex =
        Except.error (CredErr.resolutionFailed (CredErr.unsupported v))) ∧
    (s "credentialPath" itemIndex = none →
      getDynamicCredentials s itemIndex =
        Except.error (CredErr.resolutionFailed
          (CredErr.paramNotFound "credentialPath"))) := by
  have hen : isDynamicCredentialEnabled s itemIndex = true := by
    simp [isDynamicCredentialEnabled, henabled]
  refine ⟨?_, ?_, ?_⟩
  · cases hcp : s "credentialPath" itemIndex with
    | none =>
      exact ⟨CredErr.resolutionFailed (CredErr.paramNotFound "credentialPath"),
        by simp [getDynamicCredentials, hen, htype, hb, ho, ha, hcp]⟩
    | some pv =>
      exact ⟨CredErr.resolutionFailed (CredErr.unsupported v),
        by simp [getDynamicCredentials, hen, htype, hb, ho, ha, hcp]⟩
  · intro pv hcp
    simp [getDynamicCredentials, hen, htype, hb, ho, ha, hcp]
  · intro hcp
    simp [getDynamicCredentials, hen, htype, hb, ho, ha, hcp]

/-- C4 amended witness: the `ntlm` scenario at the concrete store with the
`credentialPath` parameter absent. -/
theorem c4_unsupported_type_fails_amended_witness :
    (∃ e, getDynamicCredentials ntlmStore 0 = Except.error e) ∧
    (∀ pv, ntlmStore "credentialPath" 0 = some pv →
      getDynamicCredentials ntlmStore 0 =
        Except.error (CredErr.resolutionFailed
          (CredErr.unsupported (PVal.str "ntlm")))) ∧
    (ntlmStore "credentialPath" 0 = none →
      getDynamicCredentials ntlmStore 0 =
        Except.error (CredErr.resolutionFailed
          (CredErr.paramNotFound "credentialPath"))) :=
  c4_unsupported_type_fails_amended ntlmStore 0 (PVal.str "ntlm") rfl rfl
    (by decide) (by decide) (by decide)

/-- C2 counterexample: with the enabling flag absent (the static path is
taken) and an original lookup method that throws, the proxy invokes the
original method twice — once in the `try`, once more from the `catch` — and
not exactly once as claimed. -/
theorem c2_proxy_double_invocation :
    (createCredentialsProxy (fun _ _ => none)
      (Except.error () : Except Unit Nat)).2 = 2 ∧
    (createCredentialsProxy (fun _ _ => none)
      (Except.error () : Except Unit Nat)).2 ≠ 1 := by
  decide

/-- C2 as amended: the proxy returns the dynamic credentials without
invoking the original method when the enabling flag reads truthy and
dynamic resolution succeeds; it invokes the original method exactly once
and passes its outcome through when the flag reads truthy and dynamic
resolution throws (whatever the reason), and when the flag is not truthy
and the original method returns normally; only when the flag is not truthy
and the original method itself throws is the original method invoked a
second time by the fallback `catch`, its error then propagating. -/
theorem c2_createCredentialsProxy_characterization {ε ρ : Type}
    (s : ParameterStore) (f : Except ε ρ) :
    (((s "useDynamicCredentials" 0).getD (PVal.bool false)).truthy = true →
      (∀ c, getDynamicCredentials s 0 = Except.ok c →
        createCredentialsProxy s f = (Except.ok (ProxyOut.dynamic c), 0)) ∧
      (∀ e, getDynamicCredentials s 0 = Except.error e →
        createCredentialsProxy s f = (f.map ProxyOut.staticResult, 1))) ∧
    (((s "useDynamicCredentials" 0).getD (PVal.bool false)).truthy = false →
      (∀ r, f = Except.ok r →
        createCredentialsProxy s f = (Except.ok (ProxyOut.staticResult r), 1)) ∧
      (∀ e, f = Except.error e →
        createCredentialsProxy s f = (Except.error e, 2))) := by
  constructor
  · intro hflag
    constructor
    · intro c hc
      simp [createCredentialsProxy, hflag, hc]
    · intro e he
      cases f <;> simp [createCredentialsProxy, hflag, he, Except.map]
  · intro hflag
    constructor
    · intro r hr
      subst hr
      simp [createCredentialsProxy, hflag]
    · intro e he
      subst he
      simp [createCredentialsProxy, hflag]

/-- An input descriptor owning a non-empty query map, for the generic
mutation scenario. -/
def queryOptions : ReqOptions := { qs := some [("a", PVal.str "1")] }

/-- A parameter store enabling Zammad dynamic credentials with token
authentication and the non-empty token `tok`. -/
def zammadTokenStore : ParameterStore := fun name _ =>
  if name = "useZammadDynamicCredentials" then some (.bool true)
  else if name = "authentication" then some (.str "tokenAuth")
  else if name = "accessToken" then some (.str "tok")
  else none

/-- An input descriptor owning a headers object, for the Zammad mutation
scenario. -/
def emptyHeadersOptions : ReqOptions := { headers := some [] }

/-- C1: the input descriptor is NOT left structurally unchanged. In the
generic helper's apiKey/query branch the caller's query map is written in
place (the shallow copy shares the `qs` object), and in the Zammad helper's
token branch the caller's headers map is written in place (the shallow copy
shares the `headers` object): at the concrete inputs below, the caller's
descriptor after the call differs from its value before the call, against
the code's own comment that the options are copied so as not to modify the
original. -/
theorem c1_applyDynamicCredentials_mutates_input :
    (applyDynamicCredentials apiKeyQueryStore 0 queryOptions).toOption.map
        (fun out => out.2) =
      some { qs := some [("a", PVal.str "1"), ("X-API-Key", PVal.str "abc")] } ∧
    ¬ (applyDynamicCredentials apiKeyQueryStore 0 queryOptions).toOption.map
        (fun out => out.2) = some queryOptions ∧
    (zammadApplyDynamicCredentials zammadTokenStore 0
        emptyHeadersOptions).toOption.map (fun out => out.2) =
      some { headers := some [("Authorization", PVal.str "Token token=tok")] } ∧
    ¬ (zammadApplyDynamicCredentials zammadTokenStore 0
        emptyHeadersOptions).toOption.map (fun out => out.2) =
      some emptyHeadersOptions := by
  refine ⟨by decide, by decide, by decide, by decide⟩

/-- C8: for every node description, the transform returns a description
whose property list is exactly the dynamic-credential properties followed by
the existing properties, whose credentials entries all have `required` set
to `false` while keeping their names in order, and it leaves the caller's
input description unchanged (the deep JSON clone shares nothing with it). -/
theorem c8_addDynamicCredentialsProperties_spec (d : NodeTypeDescription) :
    (addDynamicCredentialsProperties d).1.properties =
      some (dynamicCredentialsProperties ++ d.properties.getD []) ∧
    ((addDynamicCredentialsProperties d).1.credentials.getD []).all
      (fun c => c.required == some false) = true ∧
    ((addDynamicCredentialsProperties d).1.credentials.getD []).map
      (fun c => c.name) = (d.credentials.getD []).map (fun c => c.name) ∧
    (addDynamicCredentialsProperties d).2 = d := by
  refine ⟨rfl, ?_, ?_, rfl⟩
  · cases hc : d.credentials with
    | none => simp [addDynamicCredentialsProperties, hc]
    | some l => simp [addDynamicCredentialsProperties, hc, List.all_eq_true]
  · cases hc : d.credentials with
    | none => simp [addDynamicCredentialsProperties, hc]
    | some l => simp [addDynamicCredentialsProperties, hc]
